import Mathlib

set_option maxRecDepth 100000

/-!
Shallow embedding of the Crocker sketch (src/src/main.cpp): a polling loop
that reads a push-button, increments a global counter `loopCount` on each
detected press, and dispatches on the counter to drive three active-low PWM
channels (Red = pin 25, Green = pin 26, Blue = pin 27).

The embedding records, for each channel, the last duty value written by
analogWrite, together with the global counter. Serial output and delays are
side effects with no bearing on the modelled state and are omitted.
-/

namespace Crocker

/-- The three PWM output channels of the sketch. -/
inductive Channel
  | Red
  | Green
  | Blue
deriving DecidableEq, Repr

/-- The last duty-cycle value written to each channel pin. -/
structure Channels where
  red : Nat
  green : Nat
  blue : Nat
deriving DecidableEq, Repr

/-- analogWrite(pin, v): record v as the duty value of the channel. -/
def writeChannel (c : Channel) (v : Nat) (s : Channels) : Channels :=
  match c with
  | .Red => { s with red := v }
  | .Green => { s with green := v }
  | .Blue => { s with blue := v }

/-- The values taken by i in `for (int i = 255; i >= 0; i--)`: 255 down to 0. -/
def descSeq : List Nat := (List.range 256).reverse

/-- The values taken by i in `for (int i = 0; i <= 255; i++)`: 0 up to 255. -/
def ascSeq : List Nat := List.range 256

/-- One fade phase: a counted loop writing each value of the sequence to one channel. -/
def rampPhase (c : Channel) (vals : List Nat) (s : Channels) : Channels :=
  vals.foldl (fun t v => writeChannel c v t) s

/-- The six for-loops of gradualLights, in source order: target channel and i-sequence. -/
def gradualPhases : List (Channel × List Nat) :=
  [(.Green, descSeq), (.Red, ascSeq), (.Blue, descSeq),
   (.Green, ascSeq), (.Red, descSeq), (.Blue, ascSeq)]

/-- gradualLights(): first writes Red=0, Blue=255, Green=255, then runs the six fade loops. -/
def gradualLights (s : Channels) : Channels :=
  gradualPhases.foldl (fun t p => rampPhase p.1 p.2 t)
    (writeChannel .Green 255 (writeChannel .Blue 255 (writeChannel .Red 0 s)))

/-- lightsOff(): write duty 255 to Red, Green, Blue in that order. -/
def lightsOff (s : Channels) : Channels :=
  writeChannel .Blue 255 (writeChannel .Green 255 (writeChannel .Red 255 s))

/-- Program state: the global loopCount counter (a C++ int) and the channel duties. -/
structure State where
  loopCount : Int
  channels : Channels
deriving DecidableEq, Repr

/-- changeLights(): the if / else-if chain dispatching on loopCount, with each
branch body transcribed write for write from the source (branch 3 writes Blue twice). -/
def changeLights (s : State) : State :=
  if s.loopCount = 1 then
    { s with channels :=
        writeChannel .Green 255 (writeChannel .Blue 255 (writeChannel .Red 0 s.channels)) }
  else if s.loopCount = 2 then
    { s with channels :=
        writeChannel .Green 0 (writeChannel .Blue 255 (writeChannel .Red 255 s.channels)) }
  else if s.loopCount = 3 then
    { s with channels :=
        writeChannel .Green 255 (writeChannel .Blue 0
          (writeChannel .Red 255 (writeChannel .Blue 0 s.channels))) }
  else if s.loopCount = 4 then
    { s with channels := gradualLights s.channels }
  else if s.loopCount = 5 then
    { loopCount := 0, channels := lightsOff s.channels }
  else
    s

/-- One iteration of loop(): when the sampled button level is HIGH, increment
loopCount and call changeLights; otherwise do nothing. -/
def loopIter (pressed : Bool) (s : State) : State :=
  if pressed then changeLights { s with loopCount := s.loopCount + 1 } else s

/-- A run of the polling loop over a list of sampled button levels. -/
def runPolls (ps : List Bool) (s : State) : State :=
  ps.foldl (fun t p => loopIter p t) s

/-- The five branch bodies of changeLights, i.e. the five actions of the
dispatch table in section 4.3 of the specification. -/
inductive Action
  | setRedOn
  | setGreenOn
  | setBlueOn
  | fade
  | offReset
deriving DecidableEq, Repr

/-- Which branch of the changeLights chain a counter value selects, read off
the if / else-if conditions; none when no condition matches. -/
def dispatchBranch (n : Int) : Option Action :=
  if n = 1 then some .setRedOn
  else if n = 2 then some .setGreenOn
  else if n = 3 then some .setBlueOn
  else if n = 4 then some .fade
  else if n = 5 then some .offReset
  else none

/-- State effect of each branch body of changeLights. -/
def applyAction (a : Option Action) (s : State) : State :=
  match a with
  | some .setRedOn => { s with channels :=
      (writeChannel .Green 255 (writeChannel .Blue 255 (writeChannel .Red 0 s.channels))) }
  | some .setGreenOn => { s with channels :=
      (writeChannel .Green 0 (writeChannel .Blue 255 (writeChannel .Red 255 s.channels))) }
  | some .setBlueOn => { s with channels :=
      (writeChannel .Green 255 (writeChannel .Blue 0
        (writeChannel .Red 255 (writeChannel .Blue 0 s.channels)))) }
  | some .fade => { s with channels := gradualLights s.channels }
  | some .offReset => { loopCount := 0, channels := lightsOff s.channels }
  | none => s

/-- The dispatcher is the branch selection followed by the selected branch body. -/
theorem changeLights_eq_dispatch (s : State) :
    changeLights s = applyAction (dispatchBranch s.loopCount) s := by
  unfold changeLights dispatchBranch applyAction
  split_ifs <;> rfl

/-- C9: lightsOff writes duty value 255 to every one of the three channels. -/
theorem C9_lightsOff_all_255 (s : Channels) :
    lightsOff s = ⟨255, 255, 255⟩ := rfl

/-- C7: from counter 0 a detected press makes the counter 1 and sets the red
channel to its target duty 0 while green and blue are set to the inactive 255. -/
theorem C7_press_from_zero (c : Channels) :
    loopIter true ⟨0, c⟩ = ⟨1, ⟨0, 255, 255⟩⟩ := rfl

/-- C8: gradualLights is a round trip on the channel state: after its six
phases the duties equal the values written at its start (Red=0, Green=255,
Blue=255), whatever the channel values before the call. -/
theorem C8_fade_round_trip (c : Channels) :
    gradualLights c = ⟨0, 255, 255⟩ := rfl

theorem descSeq_length : descSeq.length = 256 := by
  simp [descSeq]

theorem ascSeq_length : ascSeq.length = 256 := by
  simp [ascSeq]

theorem descSeq_count (v : Nat) (h : v < 256) : descSeq.count v = 1 := by
  unfold descSeq
  rw [List.count_reverse]
  exact List.count_eq_one_of_mem (List.nodup_range 256) (List.mem_range.2 h)

theorem ascSeq_count (v : Nat) (h : v < 256) : ascSeq.count v = 1 :=
  List.count_eq_one_of_mem (List.nodup_range 256) (List.mem_range.2 h)

theorem ascSeq_sorted : ascSeq.Sorted (· < ·) := List.sorted_lt_range 256

theorem descSeq_sorted : descSeq.Sorted (· > ·) :=
  List.pairwise_reverse.2 (List.sorted_lt_range 256)

theorem descSeq_getElem (i : Nat) (h : i < 256) : descSeq[i]? = some (255 - i) := by
  unfold descSeq
  rw [List.getElem?_reverse (by simpa using h)]
  have hl : (List.range 256).length - 1 - i = 255 - i := by simp
  rw [hl]
  exact List.getElem?_range (by omega)

theorem ascSeq_getElem (i : Nat) (h : i < 256) : ascSeq[i]? = some i :=
  List.getElem?_range h

/-- C2: every one of the six fade phases writes 256 values, visiting each
duty value 0..255 exactly once; the first, third and fifth phases (the down
phases) follow the strictly decreasing sequence and the second, fourth and
sixth (the up phases) the strictly increasing one. -/
theorem C2_fade_phase_values :
    (∀ p ∈ gradualPhases, p.2.length = 256 ∧ ∀ v, v ≤ 255 → p.2.count v = 1) ∧
    gradualPhases.map Prod.snd = [descSeq, ascSeq, descSeq, ascSeq, descSeq, ascSeq] ∧
    descSeq.Sorted (· > ·) ∧ ascSeq.Sorted (· < ·) := by
  refine ⟨?_, rfl, descSeq_sorted, ascSeq_sorted⟩
  intro p hp
  simp only [gradualPhases, List.mem_cons, List.not_mem_nil, or_false] at hp
  rcases hp with rfl | rfl | rfl | rfl | rfl | rfl
  · exact ⟨descSeq_length, fun v hv => descSeq_count v (by omega)⟩
  · exact ⟨ascSeq_length, fun v hv => ascSeq_count v (by omega)⟩
  · exact ⟨descSeq_length, fun v hv => descSeq_count v (by omega)⟩
  · exact ⟨ascSeq_length, fun v hv => ascSeq_count v (by omega)⟩
  · exact ⟨descSeq_length, fun v hv => descSeq_count v (by omega)⟩
  · exact ⟨ascSeq_length, fun v hv => ascSeq_count v (by omega)⟩

/-- C2 witness: instantiated at the first fade phase and duty value 0. -/
theorem C2_fade_phase_values_witness :
    (Channel.Green, descSeq) ∈ gradualPhases ∧
    (Channel.Green, descSeq).2.length = 256 ∧
    (Channel.Green, descSeq).2.count 0 = 1 := by
  have hm : (Channel.Green, descSeq) ∈ gradualPhases := List.mem_cons_self _ _
  exact ⟨hm, (C2_fade_phase_values.1 _ hm).1,
    (C2_fade_phase_values.1 _ hm).2 0 (by norm_num)⟩

/-- C3: the fade is exactly six sequential phases targeting green, red, blue,
green, red, blue, with alternating descending and ascending ramps; each ramp
is linear over 256 steps between the extremes 255 and 0. -/
theorem C3_fade_structure :
    gradualPhases.length = 6 ∧
    gradualPhases.map Prod.fst =
      [Channel.Green, Channel.Red, Channel.Blue,
       Channel.Green, Channel.Red, Channel.Blue] ∧
    gradualPhases.map Prod.snd = [descSeq, ascSeq, descSeq, ascSeq, descSeq, ascSeq] ∧
    descSeq.length = 256 ∧ ascSeq.length = 256 ∧
    (∀ i, i < 256 → descSeq[i]? = some (255 - i) ∧ ascSeq[i]? = some i) := by
  refine ⟨rfl, rfl, rfl, descSeq_length, ascSeq_length, ?_⟩
  intro i hi
  exact ⟨descSeq_getElem i hi, ascSeq_getElem i hi⟩

/-- C3 witness: at step 0 the down ramp starts at 255 and the up ramp at 0. -/
theorem C3_fade_structure_witness :
    descSeq[0]? = some (255 - 0) ∧ ascSeq[0]? = some 0 :=
  C3_fade_structure.2.2.2.2.2 0 (by norm_num)

/-- Shared frame lemma: a counter value matching no branch condition leaves
the whole state unchanged and selects no action. -/
theorem changeLights_no_branch (s : State)
    (h : s.loopCount < 1 ∨ 5 < s.loopCount) :
    changeLights s = s ∧ dispatchBranch s.loopCount = none := by
  have h1 : s.loopCount ≠ 1 := by omega
  have h2 : s.loopCount ≠ 2 := by omega
  have h3 : s.loopCount ≠ 3 := by omega
  have h4 : s.loopCount ≠ 4 := by omega
  have h5 : s.loopCount ≠ 5 := by omega
  simp [changeLights, dispatchBranch, h1, h2, h3, h4, h5]

/-- C1 as stated is false at counter value 0, which lies in [0,5]: the
dispatcher selects no branch of the table and leaves the state untouched,
a result different from that of every one of the five actions on that state. -/
theorem C1_cex_counter_zero :
    dispatchBranch 0 = none ∧
    changeLights ⟨0, ⟨7, 7, 7⟩⟩ = ⟨0, ⟨7, 7, 7⟩⟩ ∧
    applyAction (some Action.setRedOn) ⟨0, ⟨7, 7, 7⟩⟩ ≠ ⟨0, ⟨7, 7, 7⟩⟩ ∧
    applyAction (some Action.setGreenOn) ⟨0, ⟨7, 7, 7⟩⟩ ≠ ⟨0, ⟨7, 7, 7⟩⟩ ∧
    applyAction (some Action.setBlueOn) ⟨0, ⟨7, 7, 7⟩⟩ ≠ ⟨0, ⟨7, 7, 7⟩⟩ ∧
    applyAction (some Action.fade) ⟨0, ⟨7, 7, 7⟩⟩ ≠ ⟨0, ⟨7, 7, 7⟩⟩ ∧
    applyAction (some Action.offReset) ⟨0, ⟨7, 7, 7⟩⟩ ≠ ⟨0, ⟨7, 7, 7⟩⟩ := by
  refine ⟨rfl, rfl, ?_, ?_, ?_, ?_, ?_⟩ <;> decide

/-- C1 amended: for counter values in [1,5] the dispatcher performs exactly
the table action for that value (1, 2, 3 set red, green, blue respectively to
the target duty 0 with the other two at the inactive 255; 4 runs the gradual
fade; 5 turns all channels off and resets the counter to 0), while 0 and every
other value outside [1,5] select no branch and leave the state unchanged. -/
theorem C1_amended_dispatch_table :
    (∀ c : Channels, changeLights ⟨1, c⟩ = ⟨1, ⟨0, 255, 255⟩⟩) ∧
    (∀ c : Channels, changeLights ⟨2, c⟩ = ⟨2, ⟨255, 0, 255⟩⟩) ∧
    (∀ c : Channels, changeLights ⟨3, c⟩ = ⟨3, ⟨255, 255, 0⟩⟩) ∧
    (∀ c : Channels, changeLights ⟨4, c⟩ = ⟨4, gradualLights c⟩) ∧
    (∀ c : Channels, changeLights ⟨5, c⟩ = ⟨0, ⟨255, 255, 255⟩⟩) ∧
    dispatchBranch 4 = some Action.fade ∧
    dispatchBranch 5 = some Action.offReset ∧
    (∀ n : Int, n < 1 ∨ 5 < n → dispatchBranch n = none) ∧
    (∀ s : State, s.loopCount < 1 ∨ 5 < s.loopCount → changeLights s = s) := by
  refine ⟨fun c => rfl, fun c => rfl, fun c => rfl, fun c => rfl, fun c => rfl,
    rfl, rfl, ?_, ?_⟩
  · intro n hn
    exact (changeLights_no_branch ⟨n, ⟨0, 0, 0⟩⟩ hn).2
  · intro s hs
    exact (changeLights_no_branch s hs).1

/-- C1 amended witness: instantiated at the out-of-table values 0 and 6. -/
theorem C1_amended_dispatch_table_witness :
    dispatchBranch 0 = none ∧ dispatchBranch 6 = none ∧
    changeLights ⟨6, ⟨1, 2, 3⟩⟩ = ⟨6, ⟨1, 2, 3⟩⟩ :=
  ⟨C1_amended_dispatch_table.2.2.2.2.2.2.2.1 0 (Or.inl (by norm_num)),
   C1_amended_dispatch_table.2.2.2.2.2.2.2.1 6 (Or.inr (by norm_num)),
   C1_amended_dispatch_table.2.2.2.2.2.2.2.2 ⟨6, ⟨1, 2, 3⟩⟩ (Or.inr (by norm_num))⟩

/-- C4: five presses from counter 0 return the counter to 0, and a single
press from a counter value c in [0,4] yields c+1, wrapping to 0 when c+1
reaches the maximum state 5. -/
theorem C4_counter_cycle :
    (∀ c : Channels,
      (loopIter true (loopIter true (loopIter true (loopIter true
        (loopIter true ⟨0, c⟩))))).loopCount = 0) ∧
    (∀ s : State, 0 ≤ s.loopCount → s.loopCount ≤ 4 →
      (loopIter true s).loopCount =
        if s.loopCount + 1 = 5 then 0 else s.loopCount + 1) := by
  constructor
  · intro c
    rfl
  · rintro ⟨n, ch⟩ h0 h4
    have hn : n = 0 ∨ n = 1 ∨ n = 2 ∨ n = 3 ∨ n = 4 := by
      simp only at h0 h4
      omega
    rcases hn with rfl | rfl | rfl | rfl | rfl <;> rfl

/-- C4 witness: a press at counter 4 wraps to 0. -/
theorem C4_counter_cycle_witness :
    (loopIter true ⟨4, ⟨0, 0, 0⟩⟩).loopCount =
      if (4 : Int) + 1 = 5 then 0 else 4 + 1 :=
  C4_counter_cycle.2 ⟨4, ⟨0, 0, 0⟩⟩ (by decide) (by decide)

/-- C5 as stated is false: the counter value 5 lies in [0,5], yet a pressed
iteration from it drives the counter to 6, outside [0,5]. -/
theorem C5_cex_counter_six :
    (loopIter true ⟨5, ⟨255, 255, 255⟩⟩).loopCount = 6 := by decide

/-- The inductive counter invariant: between loop iterations the counter
stays in the closed range [0,4]. -/
def counterInv (s : State) : Prop := 0 ≤ s.loopCount ∧ s.loopCount ≤ 4

theorem loopIter_counterInv (p : Bool) (s : State) (h : counterInv s) :
    counterInv (loopIter p s) := by
  cases p
  · simpa [loopIter] using h
  · rcases s with ⟨n, ch⟩
    obtain ⟨h0, h4⟩ := h
    have hn : n = 0 ∨ n = 1 ∨ n = 2 ∨ n = 3 ∨ n = 4 := by
      simp only [counterInv] at h0 h4
      omega
    rcases hn with rfl | rfl | rfl | rfl | rfl <;>
      simp [counterInv, loopIter, changeLights]

theorem runPolls_counterInv (ps : List Bool) (s : State) (h : counterInv s) :
    counterInv (runPolls ps s) := by
  induction ps generalizing s with
  | nil => simpa [runPolls] using h
  | cons p ps ih => exact ih (loopIter p s) (loopIter_counterInv p s h)

/-- C5 amended: the range preserved by every poll-loop iteration is [0,4],
not [0,5]; consequently from the startup value 0 the counter remains in
[0,4], and in particular never leaves [0,5], after any sequence of polls. -/
theorem C5_amended_counter_invariant :
    (∀ (p : Bool) (s : State), 0 ≤ s.loopCount → s.loopCount ≤ 4 →
      0 ≤ (loopIter p s).loopCount ∧ (loopIter p s).loopCount ≤ 4) ∧
    (∀ (ps : List Bool) (c : Channels),
      0 ≤ (runPolls ps ⟨0, c⟩).loopCount ∧ (runPolls ps ⟨0, c⟩).loopCount ≤ 5) := by
  constructor
  · intro p s h0 h4
    exact loopIter_counterInv p s ⟨h0, h4⟩
  · intro ps c
    obtain ⟨h0, h4⟩ := runPolls_counterInv ps ⟨0, c⟩
      ⟨le_refl 0, by show (0 : Int) ≤ 4; norm_num⟩
    exact ⟨h0, by omega⟩

/-- C5 amended witness: one pressed iteration from counter 0. -/
theorem C5_amended_counter_invariant_witness :
    0 ≤ (loopIter true ⟨0, ⟨0, 0, 0⟩⟩).loopCount ∧
    (loopIter true ⟨0, ⟨0, 0, 0⟩⟩).loopCount ≤ 4 :=
  C5_amended_counter_invariant.1 true ⟨0, ⟨0, 0, 0⟩⟩ (by decide) (by decide)

/-- C6 as stated is false: at counter 4 a press selects the off-and-reset
branch, not the fade, and already in that same evaluation the counter is 0
and all three channels are at 255. -/
theorem C6_cex_press_at_four :
    loopIter true ⟨4, ⟨0, 255, 255⟩⟩ = ⟨0, ⟨255, 255, 255⟩⟩ ∧
    dispatchBranch 5 = some Action.offReset ∧
    Action.offReset ≠ Action.fade := by decide

/-- C6 amended: a press at counter 3 makes the counter 4 and runs the gradual
fade; the following press makes it 5, whereupon within that same dispatch all
channels go off and the counter resets to 0. -/
theorem C6_amended_fade_then_off (c : Channels) :
    loopIter true ⟨3, c⟩ = ⟨4, gradualLights c⟩ ∧
    dispatchBranch 4 = some Action.fade ∧
    loopIter true ⟨4, c⟩ = ⟨0, ⟨255, 255, 255⟩⟩ ∧
    dispatchBranch 5 = some Action.offReset :=
  ⟨rfl, rfl, rfl, rfl⟩

/-- C10: a counter value matching no branch (0, or any value outside [1,5])
leaves the three channel duties and the counter unchanged: changeLights is
the identity there and no action of the table is selected. -/
theorem C10_no_branch_frame (s : State)
    (h : s.loopCount < 1 ∨ 5 < s.loopCount) :
    changeLights s = s ∧ dispatchBranch s.loopCount = none :=
  changeLights_no_branch s h

/-- C10 witness: instantiated at counter 0 with arbitrary concrete duties. -/
theorem C10_no_branch_frame_witness :
    changeLights ⟨0, ⟨9, 8, 7⟩⟩ = ⟨0, ⟨9, 8, 7⟩⟩ ∧
    dispatchBranch (0 : Int) = none :=
  C10_no_branch_frame ⟨0, ⟨9, 8, 7⟩⟩ (Or.inl (by norm_num))

end Crocker
